import Mathlib

/-!
Verification of the Service Center Management backend core
(job-card state machine, inventory ledger, GST tax engine, invoice ledger)
against its natural-language specification.

The definitions below are a shallow embedding of the Python source under
`Backend/`:
  * `Backend/jobs/models.py`      — job status lifecycle, history, delivery OTP
  * `Backend/inventory/models.py` — stock ledger with adjustment audit trail
  * `Backend/core/utils.py`       — `calculate_gst`
  * `Backend/billing/models.py`   — invoices, line items, payments
  * `Backend/billing/views.py` and `Backend/billing/serializers.py`
    — the finalize / record-payment endpoints that wrap the model methods

Monetary values (`Decimal` in the source) are embedded as rationals `ℚ`;
`Decimal.quantize(Decimal('0.01'), ROUND_HALF_UP)` and the bare
`Decimal.quantize(Decimal('0.01'))` (which uses the default context rounding
ROUND_HALF_EVEN) are embedded as `quantizeHalfUp2` and `quantizeHalfEven2`.
Fallible methods (Python `raise`) are embedded as `Except`-returning
functions; since every `raise` in the embedded methods either occurs before
any field mutation or is followed by the rollback of the enclosing
`transaction.atomic()` block, an `.error` result corresponds to a call that
leaves the persisted object unchanged.

A load-bearing Django detail, modelled explicitly below: `JobStatusHistory`
and `InventoryAdjustment` both declare
`id = models.UUIDField(primary_key=True, default=uuid.uuid4)` and guard
their overridden `save` with `if self.pk: raise ValueError(...)`.  Django
applies field defaults in `Model.__init__`, so a brand-new instance already
carries a truthy uuid primary key before its first save; consequently every
save of these two models — including the one performed by
`objects.create(...)` — takes the error branch.  The embedding represents a
fresh instance with its defaulted key (`pk = some _`) and threads the
resulting `ValueError` (and the atomic rollback) through the operations
that call `objects.create`.
-/

namespace ServiceCenter

/-! ## Rounding helpers: `Decimal.quantize` at two decimal places

`quantizeHalfUp2` embeds `x.quantize(Decimal('0.01'), ROUND_HALF_UP)`:
round to the nearest multiple of 1/100, ties away from zero.
`quantizeHalfEven2` embeds `x.quantize(Decimal('0.01'))` with the default
decimal context, whose rounding is ROUND_HALF_EVEN (banker's rounding). -/

def quantizeHalfUp2 (q : ℚ) : ℚ :=
  if 0 ≤ q then (⌊q * 100 + 1/2⌋ : ℚ) / 100
  else -((⌊-(q * 100) + 1/2⌋ : ℚ) / 100)

def roundHalfEvenInt (x : ℚ) : ℤ :=
  let n := ⌊x⌋
  let f := x - (n : ℚ)
  if f < 1/2 then n
  else if 1/2 < f then n + 1
  else if n % 2 = 0 then n else n + 1

def quantizeHalfEven2 (q : ℚ) : ℚ :=
  (roundHalfEvenInt (q * 100) : ℚ) / 100

/-! ## Job status state machine — `Backend/jobs/models.py` -/

/-- The `JobStatus` text-choices enum. -/
inductive JobStatus where
  | RECEIVED
  | DIAGNOSED
  | ESTIMATE_SHARED
  | APPROVED
  | REJECTED
  | IN_PROGRESS
  | ON_HOLD
  | READY
  | DELIVERED
  | CANCELLED
deriving DecidableEq, Repr

/-- Human-readable labels of `JobStatus` (the second component of each
Django `TextChoices` member, returned by `get_status_display` / `.label`). -/
def JobStatus.label : JobStatus → String
  | .RECEIVED => "Received"
  | .DIAGNOSED => "Diagnosed"
  | .ESTIMATE_SHARED => "Estimate Shared"
  | .APPROVED => "Approved"
  | .REJECTED => "Rejected"
  | .IN_PROGRESS => "In Progress"
  | .ON_HOLD => "On Hold"
  | .READY => "Ready for Pickup"
  | .DELIVERED => "Delivered"
  | .CANCELLED => "Cancelled"

/-- `ALLOWED_STATUS_TRANSITIONS` (jobs/models.py lines 38-49). -/
def allowedStatusTransitions : JobStatus → List JobStatus
  | .RECEIVED => [.DIAGNOSED, .CANCELLED]
  | .DIAGNOSED => [.ESTIMATE_SHARED, .CANCELLED]
  | .ESTIMATE_SHARED => [.APPROVED, .REJECTED, .CANCELLED]
  | .APPROVED => [.IN_PROGRESS, .CANCELLED]
  | .REJECTED => []
  | .IN_PROGRESS => [.ON_HOLD, .READY, .CANCELLED]
  | .ON_HOLD => [.IN_PROGRESS, .CANCELLED]
  | .READY => [.DELIVERED, .IN_PROGRESS]
  | .DELIVERED => []
  | .CANCELLED => []

/-- One `JobStatusHistory` row (jobs/models.py lines 383-417):
from/to status, actor, notes, override flag. -/
structure StatusHistoryRow where
  from_status : JobStatus
  to_status : JobStatus
  changed_by : String
  notes : String
  is_override : Bool
deriving DecidableEq, Repr

/-- An in-memory `JobStatusHistory` model instance, as produced by
`JobStatusHistory(...)` and hence by `objects.create(...)`.  The model
declares `id = models.UUIDField(primary_key=True, default=uuid.uuid4)`
(jobs/models.py line 388), and Django applies field defaults in
`Model.__init__`, so a fresh, never-saved instance already has its
primary key set. -/
structure JobStatusHistoryInstance where
  pk : Option Nat
  row : StatusHistoryRow
deriving DecidableEq, Repr

/-- Constructing a fresh `JobStatusHistory` instance: the uuid4 default
populates the primary key immediately (`uuid` abstracts the drawn
uuid4 value; only its presence matters). -/
def mkJobStatusHistoryInstance (uuid : Nat) (row : StatusHistoryRow) :
    JobStatusHistoryInstance :=
  { pk := some uuid, row := row }

/-- The fields of `JobCard` relevant to the status lifecycle and delivery
OTP.  Timestamps are abstracted to `Option Nat` (`none` = Django `null`);
`delivery_otp` is a `CharField(blank=True)` whose default value is the
empty string. -/
structure JobCard where
  job_number : String
  status : JobStatus
  actual_completion_date : Option Nat
  delivery_date : Option Nat
  delivery_otp : String
  status_history : List StatusHistoryRow
deriving DecidableEq, Repr

/-- A freshly created job card: `status` defaults to `RECEIVED` and
`delivery_otp` to the empty string (jobs/models.py lines 143-148, 212-216);
no history rows exist yet. -/
def mkJobCard (job_number : String) : JobCard :=
  { job_number := job_number
    status := .RECEIVED
    actual_completion_date := none
    delivery_date := none
    delivery_otp := ""
    status_history := [] }

/-- `JobCard.is_terminal_status` (jobs/models.py lines 290-292). -/
def JobCard.is_terminal_status (j : JobCard) : Bool :=
  decide (j.status ∈ [JobStatus.DELIVERED, JobStatus.CANCELLED, JobStatus.REJECTED])

/-- `JobCard.can_transition_to` (jobs/models.py lines 294-297). -/
def JobCard.can_transition_to (j : JobCard) (new_status : JobStatus) : Bool :=
  decide (new_status ∈ allowedStatusTransitions j.status)

/-- Errors raised by `transition_status`: `JobReadOnlyError` and
`InvalidStatusTransition` (both `BusinessRuleViolation` subclasses in
`core/exceptions.py`), plus the plain `ValueError` escaping from
`JobStatusHistory.save` when the history row is created. -/
inductive JobError where
  | jobReadOnly (msg : String)
  | invalidStatusTransition (msg : String)
  | valueError (msg : String)
deriving DecidableEq, Repr

/-- The message of the `JobReadOnlyError` f-string
(jobs/models.py lines 316-318). -/
def readOnlyMessage (j : JobCard) : String :=
  "Job " ++ j.job_number ++ " is in " ++ j.status.label ++
    " status and cannot be modified."

/-- The message of the `InvalidStatusTransition` f-string
(jobs/models.py lines 321-323): it interpolates only
`get_status_display()` (current status label) and `new_status.label`. -/
def invalidTransitionMessage (fromStatus toStatus : JobStatus) : String :=
  "Cannot transition from " ++ fromStatus.label ++ " to " ++ toStatus.label

/-- `JobCard.transition_status` (jobs/models.py lines 299-350).
The two validation raises occur before any mutation.  Past them, the
`transaction.atomic()` block updates and saves the job (`j1` below:
status plus the READY/DELIVERED timestamp stamps), then calls
`JobStatusHistory.objects.create(...)` (line 339).  That create
constructs an instance whose uuid4-defaulted primary key is already set
at `__init__`, so the overridden `JobStatusHistory.save` raises
`ValueError("JobStatusHistory records are immutable")`; the atomic block
rolls back the job update and the `ValueError` propagates.  An `.error`
result therefore models a call that leaves the persisted job unchanged,
and the `.ok` branch (history row appended) is unreachable.  The
notification emission after the create is likewise unreachable. -/
def JobCard.transition_status (j : JobCard) (new_status : JobStatus)
    (user : String) (notes : String) (is_override : Bool) (now : Nat) :
    Except JobError JobCard :=
  if j.is_terminal_status && !is_override then
    .error (.jobReadOnly (readOnlyMessage j))
  else if !is_override && !(j.can_transition_to new_status) then
    .error (.invalidStatusTransition (invalidTransitionMessage j.status new_status))
  else
    let old_status := j.status
    let j1 :=
      if new_status = .READY then
        { j with status := new_status, actual_completion_date := some now }
      else if new_status = .DELIVERED then
        { j with status := new_status, delivery_date := some now }
      else
        { j with status := new_status }
    let row : StatusHistoryRow :=
      { from_status := old_status, to_status := new_status,
        changed_by := user, notes := notes, is_override := is_override }
    match (mkJobStatusHistoryInstance 0 row).pk with
    | some _ => .error (.valueError "JobStatusHistory records are immutable")
    | none => .ok { j1 with status_history := j1.status_history ++ [row] }

/-- The job as observed after a `transition_status` call: on success the
updated card, on a raise the unchanged card (the raises precede every
mutation in the source). -/
def JobCard.transitionAttempt (j : JobCard) (new_status : JobStatus)
    (user : String) (notes : String) (is_override : Bool) (now : Nat) : JobCard :=
  match j.transition_status new_status user notes is_override now with
  | .ok j2 => j2
  | .error _ => j

/-- `JobCard.verify_delivery_otp` (jobs/models.py lines 364-366):
`return self.delivery_otp == otp`. -/
def JobCard.verify_delivery_otp (j : JobCard) (otp : String) : Bool :=
  j.delivery_otp == otp

/-- Whether `needle` is a prefix of `hay` (on character lists). -/
def charsStartWith : List Char → List Char → Bool
  | [], _ => true
  | _ :: _, [] => false
  | a :: as, b :: bs => a == b && charsStartWith as bs

/-- Whether `needle` occurs contiguously anywhere inside `hay`. -/
def charsOccur : List Char → List Char → Bool
  | needle, [] => charsStartWith needle []
  | needle, b :: rest => charsStartWith needle (b :: rest) || charsOccur needle rest

/-- Whether string `needle` occurs as a substring of `msg`
(used to interpret "the message enumerates the allowed statuses"). -/
def messageMentions (msg needle : String) : Bool :=
  charsOccur needle.data msg.data

/-! ## Inventory ledger — `Backend/inventory/models.py`

Stock quantities are embedded as `ℤ` (rather than `ℕ`) so that the
non-negativity guarantee is a proved invariant of the operations, not a
typing artifact.  The `InventoryAdjustment` audit rows live on the item
state; `JobPartUsage` rows and low-stock notifications touch other tables
and are outside the claims modelled here. -/

/-- `adjustment_type` choices used by the three ledger operations. -/
inductive AdjustmentType where
  | ADD
  | DEDUCT
  | MANUAL
  | CORRECTION
deriving DecidableEq, Repr

/-- One `InventoryAdjustment` row (inventory/models.py lines 285-327). -/
structure InventoryAdjustment where
  adjustment_type : AdjustmentType
  quantity : ℤ
  old_quantity : ℤ
  new_quantity : ℤ
  reason : String
  is_manual_adjustment : Bool
deriving DecidableEq, Repr

/-- An in-memory `InventoryAdjustment` model instance, as produced by
`InventoryAdjustment(...)` and hence by `objects.create(...)`.  Like
`JobStatusHistory`, the model declares
`id = models.UUIDField(primary_key=True, default=uuid.uuid4)`
(inventory/models.py line 290), so a fresh, never-saved instance already
has its primary key set by `Model.__init__`. -/
structure InventoryAdjustmentInstance where
  pk : Option Nat
  row : InventoryAdjustment
deriving DecidableEq, Repr

/-- Constructing a fresh `InventoryAdjustment` instance: the uuid4
default populates the primary key immediately. -/
def mkInventoryAdjustmentInstance (uuid : Nat) (row : InventoryAdjustment) :
    InventoryAdjustmentInstance :=
  { pk := some uuid, row := row }

/-- The stock-relevant fields of `InventoryItem`
(inventory/models.py lines 40-149). -/
structure InventoryItem where
  name : String
  quantity : ℤ
  adjustments : List InventoryAdjustment
deriving DecidableEq, Repr

/-- A freshly created inventory item: `quantity` defaults to 0
(inventory/models.py lines 97-100; the REST serializer declares
`quantity` read-only, so creation cannot set it) and no adjustment rows
exist yet. -/
def mkInventoryItem (name : String) : InventoryItem :=
  { name := name, quantity := 0, adjustments := [] }

/-- Errors raised by the stock operations: `ValueError` for malformed
arguments, `InsufficientInventory` (a `BusinessRuleViolation`) for a
deduction exceeding available stock. -/
inductive InventoryError where
  | valueError (msg : String)
  | insufficientInventory (msg : String)
deriving DecidableEq, Repr

/-- The `InsufficientInventory` f-string
(inventory/models.py lines 203-206). -/
def insufficientMessage (name : String) (requested available : ℤ) : String :=
  "Insufficient stock for " ++ name ++ ". Requested: " ++ toString requested ++
    ", Available: " ++ toString available

/-- `InventoryItem.add_stock` (inventory/models.py lines 156-184).
After the validation raise, the `transaction.atomic()` block mutates the
quantity and saves, then calls `InventoryAdjustment.objects.create(...)`
— which always raises `ValueError` (the uuid4-defaulted pk trips the
`if self.pk` guard in the overridden save), so the atomic block rolls
back and the call never commits; the `.ok` branch is unreachable. -/
def InventoryItem.add_stock (item : InventoryItem) (quantity : ℤ)
    (reason : String) : Except InventoryError InventoryItem :=
  if quantity ≤ 0 then .error (.valueError "Quantity must be positive")
  else
    let old_quantity := item.quantity
    let newQty := item.quantity + quantity
    let row : InventoryAdjustment :=
      { adjustment_type := .ADD, quantity := quantity,
        old_quantity := old_quantity, new_quantity := newQty,
        reason := reason, is_manual_adjustment := false }
    match (mkInventoryAdjustmentInstance 0 row).pk with
    | some _ => .error (.valueError "InventoryAdjustment records are immutable")
    | none =>
        .ok { item with
              quantity := newQty
              adjustments := item.adjustments ++ [row] }

/-- `InventoryItem.deduct_stock` (inventory/models.py lines 186-237).
Both validation raises occur before the quantity mutation; past them the
adjustment `objects.create` raises `ValueError` as in `add_stock`, so
the mutation rolls back and the `JobPartUsage` creation and low-stock
alert further down are unreachable. -/
def InventoryItem.deduct_stock (item : InventoryItem) (quantity : ℤ)
    (reason : String) : Except InventoryError InventoryItem :=
  if quantity ≤ 0 then .error (.valueError "Quantity must be positive")
  else if item.quantity < quantity then
    .error (.insufficientInventory (insufficientMessage item.name quantity item.quantity))
  else
    let old_quantity := item.quantity
    let newQty := item.quantity - quantity
    let row : InventoryAdjustment :=
      { adjustment_type := .DEDUCT, quantity := quantity,
        old_quantity := old_quantity, new_quantity := newQty,
        reason := reason, is_manual_adjustment := false }
    match (mkInventoryAdjustmentInstance 0 row).pk with
    | some _ => .error (.valueError "InventoryAdjustment records are immutable")
    | none =>
        .ok { item with
              quantity := newQty
              adjustments := item.adjustments ++ [row] }

/-- `InventoryItem.adjust_stock` (inventory/models.py lines 239-266).
Same shape: validation raise, then the adjustment `objects.create`
raises `ValueError` and the quantity write rolls back. -/
def InventoryItem.adjust_stock (item : InventoryItem) (new_quantity : ℤ)
    (reason : String) : Except InventoryError InventoryItem :=
  if new_quantity < 0 then .error (.valueError "Quantity cannot be negative")
  else
    let old_quantity := item.quantity
    let quantity_diff := new_quantity - old_quantity
    let row : InventoryAdjustment :=
      { adjustment_type := if 0 ≤ quantity_diff then .MANUAL else .CORRECTION,
        quantity := |quantity_diff|,
        old_quantity := old_quantity, new_quantity := new_quantity,
        reason := reason, is_manual_adjustment := true }
    match (mkInventoryAdjustmentInstance 0 row).pk with
    | some _ => .error (.valueError "InventoryAdjustment records are immutable")
    | none =>
        .ok { item with
              quantity := new_quantity
              adjustments := item.adjustments ++ [row] }

/-- One call in a sequence of ledger operations. -/
inductive StockOp where
  | add (qty : ℤ) (reason : String)
  | deduct (qty : ℤ) (reason : String)
  | adjust (newQty : ℤ) (reason : String)
deriving DecidableEq, Repr

/-- The item as observed after one ledger call: on a raise the unchanged
item (the validation raises precede the mutation, and the adjustment
create raise triggers the atomic rollback of the mutation). -/
def applyStockOp (item : InventoryItem) (op : StockOp) : InventoryItem :=
  let result :=
    match op with
    | .add q r => item.add_stock q r
    | .deduct q r => item.deduct_stock q r
    | .adjust q r => item.adjust_stock q r
  match result with
  | .ok item2 => item2
  | .error _ => item

/-- Run a sequence of ledger calls, failed calls acting as no-ops. -/
def runStockOps (item : InventoryItem) (ops : List StockOp) : InventoryItem :=
  ops.foldl applyStockOp item

/-- The signed delta of one adjustment row, `new_quantity - old_quantity`. -/
def adjustmentDelta (a : InventoryAdjustment) : ℤ :=
  a.new_quantity - a.old_quantity

/-- Sum of the signed deltas of an item's adjustment rows. -/
def signedDeltaSum (item : InventoryItem) : ℤ :=
  (item.adjustments.map adjustmentDelta).sum

/-! ## Tax engine — `calculate_gst` in `Backend/core/utils.py` -/

/-- The dictionary returned by `calculate_gst`. -/
structure GstResult where
  cgst_rate : ℚ
  cgst_amount : ℚ
  sgst_rate : ℚ
  sgst_amount : ℚ
  igst_rate : ℚ
  igst_amount : ℚ
  total_tax : ℚ
  total_amount : ℚ
deriving DecidableEq, Repr

/-- `calculate_gst` (core/utils.py lines 73-124).  Every `quantize` in this
function passes `ROUND_HALF_UP` explicitly.  In the intrastate branch the
CGST and SGST amounts are each computed by their own
`(base * half_rate / 100).quantize(...)` call, exactly as in the source. -/
def calculate_gst (base_amount gst_rate : ℚ) (is_interstate : Bool) : GstResult :=
  let base := base_amount
  let rate := gst_rate
  if is_interstate then
    let igst_amount := quantizeHalfUp2 (base * rate / 100)
    { cgst_rate := 0, cgst_amount := 0
      sgst_rate := 0, sgst_amount := 0
      igst_rate := rate, igst_amount := igst_amount
      total_tax := igst_amount
      total_amount := quantizeHalfUp2 (base + igst_amount) }
  else
    let half_rate := rate / 2
    let cgst_amount := quantizeHalfUp2 (base * half_rate / 100)
    let sgst_amount := quantizeHalfUp2 (base * half_rate / 100)
    let total_tax := cgst_amount + sgst_amount
    { cgst_rate := half_rate, cgst_amount := cgst_amount
      sgst_rate := half_rate, sgst_amount := sgst_amount
      igst_rate := 0, igst_amount := 0
      total_tax := total_tax
      total_amount := quantizeHalfUp2 (base + total_tax) }

/-! ## Invoice ledger — `Backend/billing/models.py`,
`Backend/billing/views.py`, `Backend/billing/serializers.py` -/

/-- The `InvoiceStatus` text-choices enum. -/
inductive InvoiceStatus where
  | DRAFT
  | PENDING
  | PARTIAL
  | PAID
  | CANCELLED
deriving DecidableEq, Repr

/-- The computed fields of `InvoiceLineItem`
(billing/models.py lines 312-428).  `quantity` is a positive integer
field; `unit_price`, `gst_rate` and `discount_percent` are 2-decimal
decimal fields. -/
structure InvoiceLineItem where
  quantity : ℕ
  unit_price : ℚ
  gst_rate : ℚ
  discount_percent : ℚ
  amount : ℚ
  cgst_rate : ℚ
  cgst_amount : ℚ
  sgst_rate : ℚ
  sgst_amount : ℚ
  igst_rate : ℚ
  igst_amount : ℚ
deriving DecidableEq, Repr

/-- `InvoiceLineItem.save` (billing/models.py lines 401-428), the part
that derives `amount` and the tax split from the input fields.  Note the
two bare `.quantize(two_places)` calls (no rounding argument): they use
the decimal context default, ROUND_HALF_EVEN; only the tax components
computed inside `calculate_gst` use ROUND_HALF_UP. -/
def lineItemSave (li : InvoiceLineItem) (is_interstate : Bool) : InvoiceLineItem :=
  let amount0 := quantizeHalfEven2 ((li.quantity : ℚ) * li.unit_price)
  let amount :=
    if 0 < li.discount_percent then
      amount0 - quantizeHalfEven2 (amount0 * li.discount_percent / 100)
    else amount0
  let gst_calc := calculate_gst amount li.gst_rate is_interstate
  { li with
    amount := amount
    cgst_rate := gst_calc.cgst_rate
    cgst_amount := gst_calc.cgst_amount
    sgst_rate := gst_calc.sgst_rate
    sgst_amount := gst_calc.sgst_amount
    igst_rate := gst_calc.igst_rate
    igst_amount := gst_calc.igst_amount }

/-- One `Payment` row (billing/models.py lines 442-493). -/
structure Payment where
  amount : ℚ
  payment_method : String
  reference : String
  notes : String
  received_by : String
deriving DecidableEq, Repr

/-- The fields of `Invoice` relevant to totals, finalization and payments
(billing/models.py lines 30-160). -/
structure Invoice where
  invoice_number : String
  is_interstate : Bool
  subtotal : ℚ
  cgst_total : ℚ
  sgst_total : ℚ
  igst_total : ℚ
  discount_amount : ℚ
  total_tax : ℚ
  total_amount : ℚ
  status : InvoiceStatus
  paid_amount : ℚ
  is_finalized : Bool
  finalized_at : Option Nat
  finalized_by : Option String
  line_items : List InvoiceLineItem
  payments : List Payment
deriving DecidableEq, Repr

/-- `Invoice.balance_due` (billing/models.py lines 165-168). -/
def Invoice.balance_due (inv : Invoice) : ℚ :=
  inv.total_amount - inv.paid_amount

/-- `Invoice._update_payment_status` (billing/models.py lines 219-231). -/
def updatePaymentStatus (inv : Invoice) : Invoice :=
  if inv.status = .CANCELLED then inv
  else if inv.balance_due ≤ 0 then { inv with status := .PAID }
  else if 0 < inv.paid_amount then { inv with status := .PARTIAL }
  else if inv.is_finalized then { inv with status := .PENDING }
  else { inv with status := .DRAFT }

/-- `Invoice.calculate_totals` (billing/models.py lines 193-217).  The
final `total_amount` quantize is a bare `.quantize(two_places)`, hence
ROUND_HALF_EVEN. -/
def calculateTotals (inv : Invoice) : Invoice :=
  if inv.is_finalized then inv
  else
    let subtotal := (inv.line_items.map InvoiceLineItem.amount).sum
    let cgst_total := (inv.line_items.map InvoiceLineItem.cgst_amount).sum
    let sgst_total := (inv.line_items.map InvoiceLineItem.sgst_amount).sum
    let igst_total := (inv.line_items.map InvoiceLineItem.igst_amount).sum
    let total_tax := cgst_total + sgst_total + igst_total
    let total_amount := quantizeHalfEven2 (subtotal + total_tax - inv.discount_amount)
    updatePaymentStatus
      { inv with
        subtotal := subtotal, cgst_total := cgst_total,
        sgst_total := sgst_total, igst_total := igst_total,
        total_tax := total_tax, total_amount := total_amount }

/-- `BusinessRuleViolation` raised inside the invoice model methods. -/
inductive BillingError where
  | businessRuleViolation (msg : String)
deriving DecidableEq, Repr

/-- `Invoice.finalize` (billing/models.py lines 233-263).  An already
finalized invoice returns silently (`if self.is_finalized: return`); an
invoice without line items raises.  The audit-log call touches no invoice
state and is omitted. -/
def Invoice.finalize (inv : Invoice) (user : String) (now : Nat) :
    Except BillingError Invoice :=
  if inv.is_finalized then .ok inv
  else if inv.line_items.isEmpty then
    .error (.businessRuleViolation "Cannot finalize invoice without line items.")
  else
    let inv1 := calculateTotals inv
    .ok { inv1 with
          is_finalized := true
          finalized_at := some now
          finalized_by := some user
          status := .PENDING }

/-- `Invoice.record_payment` (billing/models.py lines 265-309).  Both
raises precede payment creation and the `paid_amount` mutation. -/
def Invoice.record_payment (inv : Invoice) (amount : ℚ)
    (payment_method user reference notes : String) :
    Except BillingError (Invoice × Payment) :=
  if amount ≤ 0 then
    .error (.businessRuleViolation "Payment amount must be positive.")
  else if inv.status = .CANCELLED then
    .error (.businessRuleViolation "Cannot record payment on cancelled invoice.")
  else
    let payment : Payment :=
      { amount := amount, payment_method := payment_method,
        reference := reference, notes := notes, received_by := user }
    let inv1 := updatePaymentStatus
      { inv with paid_amount := inv.paid_amount + amount,
                 payments := inv.payments ++ [payment] }
    .ok (inv1, payment)

/-- Errors returned by the HTTP-layer wrappers (both the explicit
`Response(..., 400)` branches in the views and serializer validation
errors surface to the caller as a 400 with a message). -/
inductive ApiError where
  | badRequest (msg : String)
deriving DecidableEq, Repr

/-- `InvoiceViewSet.finalize` (billing/views.py lines 76-95): rejects an
already-finalized invoice, then delegates to `Invoice.finalize`,
converting a raised `BusinessRuleViolation` into a 400 response. -/
def finalizeEndpoint (inv : Invoice) (user : String) (now : Nat) :
    Except ApiError Invoice :=
  if inv.is_finalized then .error (.badRequest "Invoice is already finalized.")
  else
    match inv.finalize user now with
    | .ok inv2 => .ok inv2
    | .error (.businessRuleViolation msg) => .error (.badRequest msg)

/-- `InvoiceViewSet.record_payment` (billing/views.py lines 144-177)
composed with `RecordPaymentSerializer` (billing/serializers.py lines
227-240): the view first rejects a non-finalized invoice; the serializer
then enforces `amount ≥ 0.01` (its `min_value`) and
`amount ≤ invoice.balance_due` (`validate_amount`); finally
`Invoice.record_payment` runs, its raise converted into a 400. -/
def recordPaymentEndpoint (inv : Invoice) (amount : ℚ)
    (payment_method user reference notes : String) :
    Except ApiError (Invoice × Payment) :=
  if inv.is_finalized = false then
    .error (.badRequest "Finalize invoice before recording payments.")
  else if amount < 1/100 then
    .error (.badRequest "Ensure this value is greater than or equal to 0.01.")
  else if inv.balance_due < amount then
    .error (.badRequest "Payment amount exceeds balance due.")
  else
    match inv.record_payment amount payment_method user reference notes with
    | .ok result => .ok result
    | .error (.businessRuleViolation msg) => .error (.badRequest msg)

/-! ## Append-only audit rows — save/delete semantics

`JobStatusHistory.save` (jobs/models.py lines 414-417) and
`InventoryAdjustment.save` (inventory/models.py lines 324-327) raise
`ValueError` whenever the instance has a primary key.  Because both
models default their primary key with `uuid.uuid4` — applied by
`Model.__init__` before the first save — every instance, fresh or
loaded, has its pk set, so every save (re-saving an existing row AND
the first save performed by `objects.create`) takes the error branch;
the insert branch of the guard is unreachable.  Neither model overrides
`Model.delete`, so Django's default delete applies: the row is removed
from the table and no error is raised. -/

/-- A stored table of `JobStatusHistory` rows, keyed by primary key. -/
structure JobStatusHistoryTable where
  rows : List (Nat × StatusHistoryRow)
deriving DecidableEq, Repr

/-- `JobStatusHistory.save` applied to an instance: raises `ValueError`
when the instance's pk is set; the insert branch below is unreachable
for instances built by `__init__`, which always defaults the pk. -/
def jobStatusHistorySave (t : JobStatusHistoryTable)
    (inst : JobStatusHistoryInstance) : Except String JobStatusHistoryTable :=
  match inst.pk with
  | some _ => .error "JobStatusHistory records are immutable"
  | none => .ok { rows := t.rows ++ [(t.rows.length, inst.row)] }

/-- `JobStatusHistory.objects.create(...)`: construct a fresh instance
(pk defaulted by `__init__`) and save it — which always raises. -/
def jobStatusHistoryCreate (t : JobStatusHistoryTable) (uuid : Nat)
    (row : StatusHistoryRow) : Except String JobStatusHistoryTable :=
  jobStatusHistorySave t (mkJobStatusHistoryInstance uuid row)

/-- `JobStatusHistory` deletion: no `delete` override exists in the
source, so Django's default `Model.delete` removes the row and succeeds. -/
def jobStatusHistoryDelete (t : JobStatusHistoryTable) (pk : Nat) :
    Except String JobStatusHistoryTable :=
  .ok { rows := t.rows.filter (fun r => r.1 ≠ pk) }

/-- A stored table of `InventoryAdjustment` rows, keyed by primary key. -/
structure InventoryAdjustmentTable where
  rows : List (Nat × InventoryAdjustment)
deriving DecidableEq, Repr

/-- `InventoryAdjustment.save` applied to an instance: raises
`ValueError` when the instance's pk is set; the insert branch is
unreachable for instances built by `__init__`. -/
def inventoryAdjustmentSave (t : InventoryAdjustmentTable)
    (inst : InventoryAdjustmentInstance) : Except String InventoryAdjustmentTable :=
  match inst.pk with
  | some _ => .error "InventoryAdjustment records are immutable"
  | none => .ok { rows := t.rows ++ [(t.rows.length, inst.row)] }

/-- `InventoryAdjustment.objects.create(...)`: construct a fresh
instance (pk defaulted by `__init__`) and save it — which always raises. -/
def inventoryAdjustmentCreate (t : InventoryAdjustmentTable) (uuid : Nat)
    (row : InventoryAdjustment) : Except String InventoryAdjustmentTable :=
  inventoryAdjustmentSave t (mkInventoryAdjustmentInstance uuid row)

/-- `InventoryAdjustment` deletion: no `delete` override exists in the
source, so Django's default `Model.delete` removes the row and succeeds. -/
def inventoryAdjustmentDelete (t : InventoryAdjustmentTable) (pk : Nat) :
    Except String InventoryAdjustmentTable :=
  .ok { rows := t.rows.filter (fun r => r.1 ≠ pk) }

/-! ## Helper lemmas -/

/-- Any value already expressed in whole cents is a fixed point of the
half-up quantization. -/
theorem quantizeHalfUp2_of_cents (q : ℚ) (h : ∃ n : ℤ, q = (n : ℚ) / 100) :
    quantizeHalfUp2 q = q := by
  obtain ⟨n, rfl⟩ := h
  unfold quantizeHalfUp2
  have hmul : ((n : ℚ) / 100) * 100 = (n : ℚ) := by field_simp
  by_cases h0 : (0 : ℚ) ≤ (n : ℚ) / 100
  · rw [if_pos h0, hmul, Int.floor_int_add]
    norm_num
  · rw [if_neg h0, hmul]
    have : -(n : ℚ) = ((-n : ℤ) : ℚ) := by push_cast; ring
    rw [this, Int.floor_int_add]
    push_cast
    norm_num
    ring

/-- The half-up quantization always lands on a whole number of cents. -/
theorem quantizeHalfUp2_cents (q : ℚ) : ∃ m : ℤ, quantizeHalfUp2 q = (m : ℚ) / 100 := by
  unfold quantizeHalfUp2
  by_cases h0 : (0 : ℚ) ≤ q
  · exact ⟨⌊q * 100 + 1/2⌋, by rw [if_pos h0]⟩
  · exact ⟨-⌊-(q * 100) + 1/2⌋, by rw [if_neg h0]; push_cast; ring⟩

/-- On nonnegative inputs the half-up quantization is exactly
"multiply by 100, add one half, take the floor, divide by 100". -/
theorem quantizeHalfUp2_nonneg (x : ℚ) (hx : 0 ≤ x) :
    quantizeHalfUp2 x = (⌊x * 100 + 1/2⌋ : ℚ) / 100 := by
  unfold quantizeHalfUp2
  rw [if_pos hx]

/-- A terminal status has an empty allowed-transition set. -/
theorem allowed_empty_of_terminal (j : JobCard) (h : j.is_terminal_status = true) :
    allowedStatusTransitions j.status = [] := by
  unfold JobCard.is_terminal_status at h
  rcases j with ⟨_, s, _, _, _, _⟩
  cases s <;> simp_all [allowedStatusTransitions]

/-!
## C1 — transition legality (code bug)
-/

/-- C1 (code bug): the success half of the transition-legality claim
fails on the code.  A fresh job in `RECEIVED` asked to move to the
ALLOWED target `DIAGNOSED` does not succeed: `JobStatusHistory.objects.create`
(jobs/models.py line 339) constructs an instance whose uuid4-defaulted
primary key is set at `__init__`, the `if self.pk` guard in the
overridden save fires, and the resulting `ValueError` rolls back the
atomic block — every allowed transition raises and leaves the job
unchanged, contradicting both the claim and the model's own docstring
("Every status transition is logged").  The claim's error cases do
behave as stated (last conjunct: the disallowed `RECEIVED → DELIVERED`
raises `InvalidStatusTransition`). -/
theorem transition_allowed_never_commits :
    JobStatus.DIAGNOSED ∈ allowedStatusTransitions (mkJobCard "JC-100").status ∧
    (mkJobCard "JC-100").is_terminal_status = false ∧
    (mkJobCard "JC-100").transition_status .DIAGNOSED "alice" "" false 0 =
      .error (.valueError "JobStatusHistory records are immutable") ∧
    (mkJobCard "JC-100").transition_status .DELIVERED "alice" "" false 0 =
      .error (.invalidStatusTransition
        "Cannot transition from Received to Delivered") := by
  refine ⟨by decide, by decide, rfl, rfl⟩

/-!
## C2 — the GST split
-/

/-- C2: `calculate_gst` assigns the whole tax to IGST when interstate
(IGST rate = the full rate, amount = the half-up-rounded exact product,
CGST/SGST zero) and splits the rate exactly in half when intrastate, the
CGST and SGST amounts each computed independently as the half-up-rounded
product of the base with half the rate; in both cases `total_tax` is the
sum of the three component amounts and `total_amount = base + total_tax`
(for a base expressed in whole cents, as every monetary field is). -/
theorem calculate_gst_split (base rate : ℚ)
    (hbase : ∃ n : ℤ, base = (n : ℚ) / 100) :
    ((calculate_gst base rate true).igst_rate = rate ∧
     (calculate_gst base rate true).igst_amount = quantizeHalfUp2 (base * rate / 100) ∧
     (calculate_gst base rate true).cgst_rate = 0 ∧
     (calculate_gst base rate true).cgst_amount = 0 ∧
     (calculate_gst base rate true).sgst_rate = 0 ∧
     (calculate_gst base rate true).sgst_amount = 0 ∧
     (calculate_gst base rate true).total_tax =
       (calculate_gst base rate true).cgst_amount +
         (calculate_gst base rate true).sgst_amount +
         (calculate_gst base rate true).igst_amount ∧
     (calculate_gst base rate true).total_amount =
       base + (calculate_gst base rate true).total_tax) ∧
    ((calculate_gst base rate false).cgst_rate = rate / 2 ∧
     (calculate_gst base rate false).sgst_rate = rate / 2 ∧
     (calculate_gst base rate false).cgst_amount =
       quantizeHalfUp2 (base * (rate / 2) / 100) ∧
     (calculate_gst base rate false).sgst_amount =
       quantizeHalfUp2 (base * (rate / 2) / 100) ∧
     (calculate_gst base rate false).igst_rate = 0 ∧
     (calculate_gst base rate false).igst_amount = 0 ∧
     (calculate_gst base rate false).total_tax =
       (calculate_gst base rate false).cgst_amount +
         (calculate_gst base rate false).sgst_amount +
         (calculate_gst base rate false).igst_amount ∧
     (calculate_gst base rate false).total_amount =
       base + (calculate_gst base rate false).total_tax) := by
  obtain ⟨n, hn⟩ := hbase
  have h1 : quantizeHalfUp2 (base + quantizeHalfUp2 (base * rate / 100)) =
      base + quantizeHalfUp2 (base * rate / 100) := by
    apply quantizeHalfUp2_of_cents
    obtain ⟨m, hm⟩ := quantizeHalfUp2_cents (base * rate / 100)
    exact ⟨n + m, by rw [hm, hn]; push_cast; ring⟩
  have h2 : quantizeHalfUp2 (base +
        (quantizeHalfUp2 (base * (rate / 2) / 100) +
          quantizeHalfUp2 (base * (rate / 2) / 100))) =
      base + (quantizeHalfUp2 (base * (rate / 2) / 100) +
          quantizeHalfUp2 (base * (rate / 2) / 100)) := by
    apply quantizeHalfUp2_of_cents
    obtain ⟨m, hm⟩ := quantizeHalfUp2_cents (base * (rate / 2) / 100)
    exact ⟨n + m + m, by rw [hm, hn]; push_cast; ring⟩
  refine ⟨⟨rfl, rfl, rfl, rfl, rfl, rfl, ?_, ?_⟩,
          ⟨rfl, rfl, rfl, rfl, rfl, rfl, ?_, ?_⟩⟩
  · show quantizeHalfUp2 (base * rate / 100) =
      0 + 0 + quantizeHalfUp2 (base * rate / 100)
    ring
  · exact h1
  · show quantizeHalfUp2 (base * (rate / 2) / 100) +
        quantizeHalfUp2 (base * (rate / 2) / 100) =
      quantizeHalfUp2 (base * (rate / 2) / 100) +
        quantizeHalfUp2 (base * (rate / 2) / 100) + 0
    ring
  · exact h2

/-- Witness for C2 at the spec's worked example, base 1000 and rate 18. -/
theorem calculate_gst_split_witness :
    (∃ n : ℤ, (1000 : ℚ) = (n : ℚ) / 100) ∧
    (calculate_gst 1000 18 false).total_amount =
      1000 + (calculate_gst 1000 18 false).total_tax :=
  ⟨⟨100000, by norm_num⟩,
   (calculate_gst_split 1000 18 ⟨100000, by norm_num⟩).2.2.2.2.2.2.2.2⟩

/-!
## C3 — stock non-negativity
-/

/-- Every ledger call observably leaves the item unchanged: the
validation raises precede the mutation, and past them the adjustment
`objects.create` always raises `ValueError`, rolling the mutation back. -/
theorem applyStockOp_fixed (item : InventoryItem) (op : StockOp) :
    applyStockOp item op = item := by
  cases op with
  | add q r =>
    simp only [applyStockOp, InventoryItem.add_stock, mkInventoryAdjustmentInstance]
    split_ifs <;> rfl
  | deduct q r =>
    simp only [applyStockOp, InventoryItem.deduct_stock, mkInventoryAdjustmentInstance]
    split_ifs <;> rfl
  | adjust q r =>
    simp only [applyStockOp, InventoryItem.adjust_stock, mkInventoryAdjustmentInstance]
    split_ifs <;> rfl

/-- A whole sequence of ledger calls leaves the item unchanged. -/
theorem runStockOps_fixed (item : InventoryItem) (ops : List StockOp) :
    runStockOps item ops = item := by
  unfold runStockOps
  induction ops generalizing item with
  | nil => rfl
  | cons op rest ih =>
    rw [List.foldl_cons, applyStockOp_fixed]
    exact ih item

/-- C3: starting from a nonnegative stock level, no sequence of
`add_stock` / `deduct_stock` / `adjust_stock` calls can make the quantity
negative; and a deduction of `qty > 0` exceeding the available quantity
always raises `InsufficientInventory` — whose message carries the
requested and available quantities — and is a complete no-op on the item
(quantity and adjustment history unchanged). -/
theorem stock_never_negative (item : InventoryItem) (ops : List StockOp)
    (qty : ℤ) (reason : String) (h0 : 0 ≤ item.quantity) :
    0 ≤ (runStockOps item ops).quantity ∧
    (0 < qty → item.quantity < qty →
      item.deduct_stock qty reason =
        .error (.insufficientInventory
          (insufficientMessage item.name qty item.quantity)) ∧
      applyStockOp item (.deduct qty reason) = item) := by
  constructor
  · rw [runStockOps_fixed]
    exact h0
  · intro hq hlt
    have herr : item.deduct_stock qty reason =
        .error (.insufficientInventory
          (insufficientMessage item.name qty item.quantity)) := by
      unfold InventoryItem.deduct_stock
      rw [if_neg (by omega), if_pos hlt]
    exact ⟨herr, applyStockOp_fixed item (.deduct qty reason)⟩

/-- Witness for C3: mirrors the spec's example — on an item with one unit
in stock, an add followed by an over-deduction keeps quantity
nonnegative, and `deduct_stock 5` on quantity 1 raises
`InsufficientInventory` naming requested 5 and available 1. -/
theorem stock_never_negative_witness :
    (0 : ℤ) ≤ (runStockOps { name := "RAM", quantity := 1, adjustments := [] }
        [.add 2 "purchase", .deduct 5 "job"]).quantity ∧
    ({ name := "RAM", quantity := 1, adjustments := [] } : InventoryItem).deduct_stock
        5 "job" = .error (.insufficientInventory (insufficientMessage "RAM" 5 1)) :=
  ⟨(stock_never_negative { name := "RAM", quantity := 1, adjustments := [] }
      [.add 2 "purchase", .deduct 5 "job"] 5 "job" (by norm_num)).1,
   ((stock_never_negative { name := "RAM", quantity := 1, adjustments := [] }
      [] 5 "job" (by norm_num)).2 (by norm_num) (by norm_num)).1⟩

/-!
## C6 — adjustment reconciliation
-/

/-- The claim's gloss of a row's signed delta: `+quantity` for
ADD/MANUAL rows, `-quantity` for DEDUCT/CORRECTION rows. -/
def signedRowValue (a : InventoryAdjustment) : ℤ :=
  match a.adjustment_type with
  | .ADD => a.quantity
  | .MANUAL => a.quantity
  | .DEDUCT => -a.quantity
  | .CORRECTION => -a.quantity

/-- C6: for an item whose adjustment history reconciles with its
quantity (as a freshly created item does: quantity 0, no rows), any
sequence of ledger calls preserves reconciliation — the sum of the
signed deltas (`new_quantity - old_quantity`, equivalently `+quantity`
for ADD/MANUAL rows and `-quantity` for DEDUCT/CORRECTION rows) equals
the current quantity.  In the current source this holds a fortiori:
because the adjustment `objects.create` always raises and rolls back,
no ledger call ever changes the quantity or the row set. -/
theorem adjustment_reconciliation (item : InventoryItem) (ops : List StockOp)
    (h : signedDeltaSum item = item.quantity)
    (hrows : ∀ a ∈ item.adjustments, adjustmentDelta a = signedRowValue a) :
    signedDeltaSum (runStockOps item ops) = (runStockOps item ops).quantity ∧
    ∀ a ∈ (runStockOps item ops).adjustments,
      adjustmentDelta a = signedRowValue a := by
  rw [runStockOps_fixed]
  exact ⟨h, hrows⟩

/-- Witness for C6: a fresh item taken through an add, a deduct and a
manual adjustment still reconciles. -/
theorem adjustment_reconciliation_witness :
    signedDeltaSum (mkInventoryItem "SSD") = (mkInventoryItem "SSD").quantity ∧
    signedDeltaSum (runStockOps (mkInventoryItem "SSD")
        [.add 10 "purchase", .deduct 3 "job", .adjust 5 "yearly audit"]) =
      (runStockOps (mkInventoryItem "SSD")
        [.add 10 "purchase", .deduct 3 "job", .adjust 5 "yearly audit"]).quantity :=
  ⟨rfl,
   (adjustment_reconciliation (mkInventoryItem "SSD")
      [.add 10 "purchase", .deduct 3 "job", .adjust 5 "yearly audit"]
      rfl (by simp [mkInventoryItem])).1⟩

/-!
## C8 — the InvalidStatusTransition message
-/

/-- C8 counterexample: a job in `RECEIVED` asked to move to `DELIVERED`
raises `InvalidStatusTransition`, but the message is
"Cannot transition from Received to Delivered": it does NOT enumerate the
allowed target statuses `[DIAGNOSED, CANCELLED]` — neither the label
"Diagnosed" nor the enum name "DIAGNOSED" occurs in it (nor does
"Cancelled"/"CANCELLED"). -/
theorem invalid_transition_message_counterexample :
    (mkJobCard "JC-1").transition_status .DELIVERED "alice" "" false 0 =
      .error (.invalidStatusTransition "Cannot transition from Received to Delivered") ∧
    allowedStatusTransitions (mkJobCard "JC-1").status =
      [.DIAGNOSED, .CANCELLED] ∧
    messageMentions "Cannot transition from Received to Delivered" "Diagnosed" = false ∧
    messageMentions "Cannot transition from Received to Delivered" "DIAGNOSED" = false ∧
    messageMentions "Cannot transition from Received to Delivered" "Cancelled" = false ∧
    messageMentions "Cannot transition from Received to Delivered" "CANCELLED" = false := by
  refine ⟨?_, ?_, ?_, ?_, ?_, ?_⟩
  · rfl
  · decide
  · decide
  · decide
  · decide
  · decide

/-- C8 amended: on a non-terminal job, a disallowed non-override
transition raises `InvalidStatusTransition` whose message names the
current status label and the attempted target label — and nothing else:
it does not enumerate the allowed targets. -/
theorem invalid_transition_message_amended (j : JobCard) (t : JobStatus)
    (user notes : String) (now : Nat)
    (hterm : j.is_terminal_status = false)
    (hmem : t ∉ allowedStatusTransitions j.status) :
    j.transition_status t user notes false now =
      .error (.invalidStatusTransition
        ("Cannot transition from " ++ j.status.label ++ " to " ++ t.label)) := by
  have hcan : j.can_transition_to t = false := by
    unfold JobCard.can_transition_to
    simpa using hmem
  unfold JobCard.transition_status
  rw [hterm, hcan]
  simp [invalidTransitionMessage]

/-- Witness for the amended C8 at a concrete job and target. -/
theorem invalid_transition_message_amended_witness :
    (mkJobCard "JC-2").is_terminal_status = false ∧
    JobStatus.DELIVERED ∉ allowedStatusTransitions (mkJobCard "JC-2").status ∧
    (mkJobCard "JC-2").transition_status .DELIVERED "bob" "" false 0 =
      .error (.invalidStatusTransition
        ("Cannot transition from " ++ (mkJobCard "JC-2").status.label ++
          " to " ++ JobStatus.DELIVERED.label)) :=
  ⟨by decide, by decide,
   invalid_transition_message_amended (mkJobCard "JC-2") .DELIVERED "bob" "" 0
     (by decide) (by decide)⟩

/-!
## C9 — append-only audit rows
-/

def sampleHistoryRow : StatusHistoryRow :=
  { from_status := .RECEIVED, to_status := .DIAGNOSED, changed_by := "alice",
    notes := "", is_override := false }

def sampleAdjustmentRow : InventoryAdjustment :=
  { adjustment_type := .ADD, quantity := 5, old_quantity := 0, new_quantity := 5,
    reason := "initial stock", is_manual_adjustment := false }

/-- C9 counterexample: two parts of the claim fail on the code.
Deleting an existing `JobStatusHistory` or `InventoryAdjustment` row is
NOT an error — neither model overrides `Model.delete`, so the default
delete removes the row and succeeds.  And creating a new row is NOT a
permitted write either: the fresh instance's uuid4-defaulted primary
key trips the `if self.pk` guard, so `objects.create` raises
`ValueError`. -/
theorem audit_delete_not_error_counterexample :
    jobStatusHistoryDelete { rows := [(0, sampleHistoryRow)] } 0 = .ok { rows := [] } ∧
    inventoryAdjustmentDelete { rows := [(0, sampleAdjustmentRow)] } 0 = .ok { rows := [] } ∧
    jobStatusHistoryCreate { rows := [] } 7 sampleHistoryRow =
      .error "JobStatusHistory records are immutable" ∧
    inventoryAdjustmentCreate { rows := [] } 7 sampleAdjustmentRow =
      .error "InventoryAdjustment records are immutable" :=
  ⟨rfl, rfl, rfl, rfl⟩

/-- C9 amended: no save of either audit model ever succeeds — the
overridden save raises `ValueError` whenever `self.pk` is set, and the
uuid4 primary-key default (applied at instance construction) means
every instance, fresh or loaded, has its pk set; so re-saving an
existing row raises as the claim says, but creating a new row via
`objects.create` raises too (a bug: the guard was meant to detect
re-saves, as the insert branch of the overridden save shows).
Deletion, finally, is not blocked at the model layer — the default
delete removes the row without error. -/
theorem audit_rows_append_only_amended (t1 : JobStatusHistoryTable)
    (t2 : InventoryAdjustmentTable) (pk uuid uuid2 : Nat)
    (r : StatusHistoryRow) (a : InventoryAdjustment) :
    jobStatusHistorySave t1 (mkJobStatusHistoryInstance uuid r) =
      .error "JobStatusHistory records are immutable" ∧
    inventoryAdjustmentSave t2 (mkInventoryAdjustmentInstance uuid2 a) =
      .error "InventoryAdjustment records are immutable" ∧
    jobStatusHistoryCreate t1 uuid r =
      .error "JobStatusHistory records are immutable" ∧
    inventoryAdjustmentCreate t2 uuid2 a =
      .error "InventoryAdjustment records are immutable" ∧
    jobStatusHistoryDelete t1 pk =
      .ok { rows := t1.rows.filter (fun x => x.1 ≠ pk) } ∧
    inventoryAdjustmentDelete t2 pk =
      .ok { rows := t2.rows.filter (fun x => x.1 ≠ pk) } :=
  ⟨rfl, rfl, rfl, rfl, rfl, rfl⟩

/-!
## C10 — delivery OTP verification
-/

/-- C10: `verify_delivery_otp` is a pure equality check against the
stored `delivery_otp` (it changes no state — it is a plain function of
the job), and on a job whose OTP was never generated (`delivery_otp` is
the empty string) verification with an empty candidate succeeds. -/
theorem verify_otp_empty_accepts (j : JobCard) (h : j.delivery_otp = "") :
    (∀ c, j.verify_delivery_otp c = true ↔ j.delivery_otp = c) ∧
    j.verify_delivery_otp "" = true := by
  constructor
  · intro c
    unfold JobCard.verify_delivery_otp
    exact beq_iff_eq
  · unfold JobCard.verify_delivery_otp
    rw [h]
    rfl

/-- Witness for C10 at a freshly created job card. -/
theorem verify_otp_empty_accepts_witness :
    (mkJobCard "JC-3").delivery_otp = "" ∧
    (mkJobCard "JC-3").verify_delivery_otp "" = true :=
  ⟨rfl, (verify_otp_empty_accepts (mkJobCard "JC-3") rfl).2⟩

/-!
## C4 — recording payments
-/

/-- `_update_payment_status` only re-derives the status; every other
field is left untouched. -/
theorem updatePaymentStatus_fields (inv : Invoice) :
    (updatePaymentStatus inv).paid_amount = inv.paid_amount ∧
    (updatePaymentStatus inv).total_amount = inv.total_amount ∧
    (updatePaymentStatus inv).payments = inv.payments := by
  unfold updatePaymentStatus
  split_ifs <;> exact ⟨rfl, rfl, rfl⟩

/-- On a non-cancelled invoice with no balance due,
`_update_payment_status` derives `PAID`. -/
theorem updatePaymentStatus_paid (inv : Invoice)
    (hnc : ¬ inv.status = .CANCELLED) (hb : inv.balance_due ≤ 0) :
    (updatePaymentStatus inv).status = .PAID := by
  unfold updatePaymentStatus
  rw [if_neg hnc, if_pos hb]

/-- On a non-cancelled invoice with a positive balance and a positive
paid amount, `_update_payment_status` derives `PARTIAL`. -/
theorem updatePaymentStatus_partial (inv : Invoice)
    (hnc : ¬ inv.status = .CANCELLED) (hb : ¬ inv.balance_due ≤ 0)
    (hp : 0 < inv.paid_amount) :
    (updatePaymentStatus inv).status = .PARTIAL := by
  unfold updatePaymentStatus
  rw [if_neg hnc, if_neg hb, if_pos hp]

/-- C4: the record-payment endpoint with a positive whole-cent amount
fails whenever the invoice is cancelled, not yet finalized, or the amount
exceeds the balance due (`total_amount - paid_amount`); otherwise it
succeeds, creating exactly one payment of that amount, increasing
`paid_amount` by exactly the amount, leaving `total_amount` unchanged,
and re-deriving the status (`PAID` when the new balance is ≤ 0,
`PARTIAL` otherwise).  A failure returns an error, i.e. no payment row
and no field change (every raise precedes the mutations in the source). -/
theorem record_payment_endpoint_spec (inv : Invoice) (amount : ℚ)
    (method user reference notes : String)
    (hpos : 0 < amount) (h2dp : ∃ n : ℤ, amount = (n : ℚ) / 100)
    (hpaid : 0 ≤ inv.paid_amount) :
    ((inv.status = .CANCELLED ∨ inv.is_finalized = false ∨
        inv.total_amount - inv.paid_amount < amount) →
      ∃ e, recordPaymentEndpoint inv amount method user reference notes = .error e) ∧
    (¬ inv.status = .CANCELLED → inv.is_finalized = true →
      amount ≤ inv.total_amount - inv.paid_amount →
      ∃ inv2 p, recordPaymentEndpoint inv amount method user reference notes =
          .ok (inv2, p) ∧
        p.amount = amount ∧
        inv2.payments = inv.payments ++ [p] ∧
        inv2.paid_amount = inv.paid_amount + amount ∧
        inv2.total_amount = inv.total_amount ∧
        (inv2.total_amount - inv2.paid_amount ≤ 0 → inv2.status = .PAID) ∧
        (¬ inv2.total_amount - inv2.paid_amount ≤ 0 → inv2.status = .PARTIAL)) := by
  have hmin : ¬ amount < 1/100 := by
    obtain ⟨n, rfl⟩ := h2dp
    have hn0 : (0 : ℚ) < (n : ℚ) := by linarith
    have hn1 : (1 : ℤ) ≤ n := by exact_mod_cast hn0
    have hn1q : (1 : ℚ) ≤ (n : ℚ) := by exact_mod_cast hn1
    intro hlt
    linarith
  constructor
  · intro hfail
    cases hf : inv.is_finalized with
    | false =>
      refine ⟨.badRequest "Finalize invoice before recording payments.", ?_⟩
      unfold recordPaymentEndpoint
      rw [if_pos hf]
    | true =>
      by_cases hex : inv.balance_due < amount
      · refine ⟨.badRequest "Payment amount exceeds balance due.", ?_⟩
        unfold recordPaymentEndpoint
        rw [if_neg (by simp [hf]), if_neg hmin, if_pos hex]
      · have hcanc : inv.status = .CANCELLED := by
          rcases hfail with hc | hnf | hexc
          · exact hc
          · rw [hf] at hnf
            exact absurd hnf (by simp)
          · exact absurd (show inv.balance_due < amount from hexc) hex
        refine ⟨.badRequest "Cannot record payment on cancelled invoice.", ?_⟩
        unfold recordPaymentEndpoint Invoice.record_payment
        rw [if_neg (by simp [hf]), if_neg hmin, if_neg hex,
          if_neg (not_le.mpr hpos), if_pos hcanc]
  · intro hncanc hf hle
    have hex : ¬ inv.balance_due < amount := not_lt.mpr hle
    have hrun : recordPaymentEndpoint inv amount method user reference notes =
        .ok (updatePaymentStatus
          { inv with paid_amount := inv.paid_amount + amount,
                     payments := inv.payments ++
                       [{ amount := amount, payment_method := method,
                          reference := reference, notes := notes,
                          received_by := user }] },
          { amount := amount, payment_method := method, reference := reference,
            notes := notes, received_by := user }) := by
      unfold recordPaymentEndpoint Invoice.record_payment
      rw [if_neg (by simp [hf]), if_neg hmin, if_neg hex,
        if_neg (not_le.mpr hpos), if_neg hncanc]
    have hfields := updatePaymentStatus_fields
      { inv with paid_amount := inv.paid_amount + amount,
                 payments := inv.payments ++
                   [{ amount := amount, payment_method := method,
                      reference := reference, notes := notes,
                      received_by := user }] }
    refine ⟨_, _, hrun, rfl, hfields.2.2, hfields.1, hfields.2.1, ?_, ?_⟩
    · intro hb
      refine updatePaymentStatus_paid _ hncanc ?_
      rw [hfields.2.1, hfields.1] at hb
      exact hb
    · intro hb
      refine updatePaymentStatus_partial _ hncanc ?_ ?_
      · rw [hfields.2.1, hfields.1] at hb
        exact hb
      · show 0 < inv.paid_amount + amount
        linarith

def sampleLineItem : InvoiceLineItem :=
  { quantity := 1, unit_price := 1000, gst_rate := 18, discount_percent := 0,
    amount := 1000, cgst_rate := 9, cgst_amount := 90, sgst_rate := 9,
    sgst_amount := 90, igst_rate := 0, igst_amount := 0 }

def sampleInvoice : Invoice :=
  { invoice_number := "INV-1", is_interstate := false,
    subtotal := 1000, cgst_total := 90, sgst_total := 90, igst_total := 0,
    discount_amount := 0, total_tax := 180, total_amount := 1180,
    status := .PENDING, paid_amount := 0, is_finalized := true,
    finalized_at := some 0, finalized_by := some "boss",
    line_items := [sampleLineItem], payments := [] }

/-- Witness for C4: paying the full 1180 balance of a finalized pending
invoice succeeds and the status derives to `PAID`. -/
theorem record_payment_endpoint_spec_witness :
    (0 : ℚ) < 1180 ∧
    ∃ inv2 p, recordPaymentEndpoint sampleInvoice 1180 "UPI" "alice" "" "" =
        .ok (inv2, p) ∧
      p.amount = 1180 ∧
      inv2.payments = sampleInvoice.payments ++ [p] ∧
      inv2.paid_amount = sampleInvoice.paid_amount + 1180 ∧
      inv2.total_amount = sampleInvoice.total_amount ∧
      (inv2.total_amount - inv2.paid_amount ≤ 0 → inv2.status = .PAID) ∧
      (¬ inv2.total_amount - inv2.paid_amount ≤ 0 → inv2.status = .PARTIAL) :=
  ⟨by norm_num,
   (record_payment_endpoint_spec sampleInvoice 1180 "UPI" "alice" "" ""
      (by norm_num) ⟨118000, by norm_num⟩ (by norm_num [sampleInvoice])).2
     (by simp [sampleInvoice]) rfl (by norm_num [sampleInvoice])⟩

/-!
## C5 — finalizing an invoice
-/

/-- C5: the finalize endpoint fails on an already-finalized invoice and
on an invoice with zero line items; otherwise it recalculates the totals
once more, flips `is_finalized` to true, stamps `finalized_at` and
`finalized_by`, and forces the status to `PENDING`. -/
theorem finalize_endpoint_spec (inv : Invoice) (user : String) (now : Nat) :
    (inv.is_finalized = true →
      finalizeEndpoint inv user now =
        .error (.badRequest "Invoice is already finalized.")) ∧
    (inv.is_finalized = false → inv.line_items = [] →
      finalizeEndpoint inv user now =
        .error (.badRequest "Cannot finalize invoice without line items.")) ∧
    (inv.is_finalized = false → inv.line_items ≠ [] →
      ∃ inv2, finalizeEndpoint inv user now = .ok inv2 ∧
        inv2.is_finalized = true ∧
        inv2.finalized_at = some now ∧
        inv2.finalized_by = some user ∧
        inv2.status = .PENDING ∧
        inv2.subtotal = (calculateTotals inv).subtotal ∧
        inv2.total_tax = (calculateTotals inv).total_tax ∧
        inv2.total_amount = (calculateTotals inv).total_amount) := by
  refine ⟨?_, ?_, ?_⟩
  · intro hf
    unfold finalizeEndpoint
    rw [if_pos hf]
  · intro hf he
    unfold finalizeEndpoint Invoice.finalize
    rw [if_neg (by simp [hf]), if_neg (by simp [hf]), if_pos (by simp [he])]
  · intro hf hne
    have hval : finalizeEndpoint inv user now =
        .ok { (calculateTotals inv) with
              is_finalized := true, finalized_at := some now,
              finalized_by := some user, status := .PENDING } := by
      unfold finalizeEndpoint Invoice.finalize
      rw [if_neg (by simp [hf]), if_neg (by simp [hf]),
        if_neg (by simp [List.isEmpty_iff, hne])]
    exact ⟨_, hval, rfl, rfl, rfl, rfl, rfl, rfl, rfl⟩

def draftInvoice : Invoice :=
  { invoice_number := "INV-2", is_interstate := false,
    subtotal := 0, cgst_total := 0, sgst_total := 0, igst_total := 0,
    discount_amount := 0, total_tax := 0, total_amount := 0,
    status := .DRAFT, paid_amount := 0, is_finalized := false,
    finalized_at := none, finalized_by := none,
    line_items := [sampleLineItem], payments := [] }

/-- Witness for C5: finalizing a draft invoice with one line item
succeeds, stamps the finalization fields and forces `PENDING`. -/
theorem finalize_endpoint_spec_witness :
    draftInvoice.is_finalized = false ∧
    ∃ inv2, finalizeEndpoint draftInvoice "boss" 7 = .ok inv2 ∧
      inv2.is_finalized = true ∧
      inv2.finalized_at = some 7 ∧
      inv2.finalized_by = some "boss" ∧
      inv2.status = .PENDING ∧
      inv2.subtotal = (calculateTotals draftInvoice).subtotal ∧
      inv2.total_tax = (calculateTotals draftInvoice).total_tax ∧
      inv2.total_amount = (calculateTotals draftInvoice).total_amount :=
  ⟨rfl,
   (finalize_endpoint_spec draftInvoice "boss" 7).2.2 rfl (by simp [draftInvoice])⟩

/-!
## C7 — rounding discipline in invoicing
-/

/-- A line item with a discount percentage whose exact deduction,
10.00 × 1.25% = 0.125, sits exactly on a half cent. -/
def discountedLineItem : InvoiceLineItem :=
  { quantity := 1, unit_price := 10, gst_rate := 18, discount_percent := 5/4,
    amount := 0, cgst_rate := 0, cgst_amount := 0, sgst_rate := 0,
    sgst_amount := 0, igst_rate := 0, igst_amount := 0 }

/-- C7 counterexample: not every monetary rounding in invoicing is
half-up.  `InvoiceLineItem.save` quantizes the discount deduction with a
bare `.quantize(two_places)` — banker's rounding — so a 1.25% discount
on 10.00 deducts 0.12 (half-even) and yields `amount = 9.88`, whereas
rounding the exact product 0.125 half-up gives 0.13 and would yield
9.87. -/
theorem rounding_half_up_counterexample :
    (lineItemSave discountedLineItem false).amount = 988/100 ∧
    quantizeHalfUp2 ((10 : ℚ) * (5/4) / 100) = 13/100 ∧
    (988 : ℚ)/100 ≠ 10 - 13/100 := by
  refine ⟨?_, ?_, ?_⟩
  · norm_num [lineItemSave, discountedLineItem, quantizeHalfEven2,
      roundHalfEvenInt, calculate_gst, quantizeHalfUp2]
  · norm_num [quantizeHalfUp2]
  · norm_num

/-- C7 amended: rounding in invoicing is performed after each discrete
multiplication — the `quantity × unit_price` amount and the discount
deduction are each quantized to 2 decimals with the decimal context
default, ROUND_HALF_EVEN (banker's rounding), while each tax component is
quantized half-up; on nonnegative operands the half-up quantization
equals the mathematically exact product rounded half-up to 2 decimals
(`⌊100·x + 1/2⌋ / 100`). -/
theorem rounding_per_step_amended (li0 : InvoiceLineItem) (inter : Bool) :
    ((lineItemSave li0 inter).amount =
      quantizeHalfEven2 ((li0.quantity : ℚ) * li0.unit_price) -
        (if 0 < li0.discount_percent then
          quantizeHalfEven2
            (quantizeHalfEven2 ((li0.quantity : ℚ) * li0.unit_price) *
              li0.discount_percent / 100)
         else 0)) ∧
    (inter = true →
      (lineItemSave li0 inter).igst_amount =
        quantizeHalfUp2 ((lineItemSave li0 inter).amount * li0.gst_rate / 100) ∧
      (lineItemSave li0 inter).cgst_amount = 0 ∧
      (lineItemSave li0 inter).sgst_amount = 0) ∧
    (inter = false →
      (lineItemSave li0 inter).cgst_amount =
        quantizeHalfUp2
          ((lineItemSave li0 inter).amount * (li0.gst_rate / 2) / 100) ∧
      (lineItemSave li0 inter).sgst_amount =
        quantizeHalfUp2
          ((lineItemSave li0 inter).amount * (li0.gst_rate / 2) / 100) ∧
      (lineItemSave li0 inter).igst_amount = 0) ∧
    (∀ x : ℚ, 0 ≤ x → quantizeHalfUp2 x = (⌊x * 100 + 1/2⌋ : ℚ) / 100) := by
  refine ⟨?_, ?_, ?_, ?_⟩
  · by_cases hd : 0 < li0.discount_percent
    · simp [lineItemSave, hd]
    · simp [lineItemSave, hd]
  · intro hi
    subst hi
    exact ⟨rfl, rfl, rfl⟩
  · intro hi
    subst hi
    exact ⟨rfl, rfl, rfl⟩
  · intro x hx
    exact quantizeHalfUp2_nonneg x hx

/-- Witness for the amended C7 at the concrete discounted line item. -/
theorem rounding_per_step_amended_witness :
    ((lineItemSave discountedLineItem false).amount =
      quantizeHalfEven2
          ((discountedLineItem.quantity : ℚ) * discountedLineItem.unit_price) -
        (if 0 < discountedLineItem.discount_percent then
          quantizeHalfEven2
            (quantizeHalfEven2
                ((discountedLineItem.quantity : ℚ) * discountedLineItem.unit_price) *
              discountedLineItem.discount_percent / 100)
         else 0)) ∧
    (lineItemSave discountedLineItem false).cgst_amount =
      quantizeHalfUp2
        ((lineItemSave discountedLineItem false).amount *
          (discountedLineItem.gst_rate / 2) / 100) :=
  ⟨(rounding_per_step_amended discountedLineItem false).1,
   ((rounding_per_step_amended discountedLineItem false).2.2.1 rfl).1⟩

end ServiceCenter
